import Mathlib

set_option autoImplicit false

/-!
Shallow embedding of the `asset_hub_xcm_minimal_indexer` repository: a block-scoped
XCM transfer extraction and classification engine for Polkadot Asset Hub.

The embedding follows the Rust sources:
- `src/types.rs`: shared types and constants.
- `src/error.rs`: the `Error` enum.
- `src/helpers.rs`: teleportability rule, metadata resolution, amount normalization,
  address formatting, and the incoming/outgoing combiner.
- `src/incoming_parser.rs`: the event scan correlating issuance events with
  message-queue `Processed` events.
- `src/outgoing_parser.rs`: the extrinsic scan decoding the three known transfer
  call shapes.

External collaborators (the subxt client, sp_core ss58 codec, the derived Debug
formatter) are modelled as explicit parameters or as functions inside a `Block`
value; raw-byte decoding is modelled by typed-decode accessors over structured
event/extrinsic data, mirroring subxt's `as_event`/`as_extrinsic` behaviour
(returning `none` both on pallet/variant mismatch and on byte-decode failure).

Amounts: the Rust code converts integer amounts with `to_decimal_f64` in `f64`.
IEEE-754 double arithmetic is not kernel-reducible in this development, so record
amounts carry the exact rational value `value / 10^decimals`; all classification
claims settled here are independent of float rounding.
-/

/-! ## `src/types.rs` -/

/-- `TransferType` from `src/types.rs`. -/
inductive TransferType
  | Teleport
  | Reserve
deriving DecidableEq, Repr

/-- `DOT_DECIMALS` constant from `src/types.rs`. -/
def DOT_DECIMALS : Nat := 10

/-- `AssetMetadataValues` from `src/types.rs` (decimals is `u8` in Rust). -/
structure AssetMetadataValues where
  asset_name : String
  decimals : Nat
deriving DecidableEq, Repr

/-! ## XCM location types (from the subxt-generated metadata types used by the sources) -/

/-- `xcm::v3::junction::NetworkId` (constructors the code can observe; payloads of
variants the code never inspects are kept but simplified to byte lists / naturals). -/
inductive NetworkId
  | ByGenesis (genesis : List UInt8)
  | ByFork (blockNumber : Nat) (blockHash : List UInt8)
  | Polkadot
  | Kusama
  | Westend
  | Rococo
  | Wococo
  | Ethereum (chain_id : Nat)
  | BitcoinCore
  | BitcoinCash
deriving DecidableEq, Repr

/-- `xcm::v3::junction::Junction`. Byte-array payloads are byte lists, numeric
payloads are naturals (`u32`/`u8`/`u128` in Rust). -/
inductive Junction
  | Parachain (id : Nat)
  | AccountId32 (network : Option NetworkId) (id : List UInt8)
  | AccountIndex64 (network : Option NetworkId) (index : Nat)
  | AccountKey20 (network : Option NetworkId) (key : List UInt8)
  | PalletInstance (index : Nat)
  | GeneralIndex (value : Nat)
  | GeneralKey (length : Nat) (data : List UInt8)
  | OnlyChild
  | Plurality
  | GlobalConsensus (network : NetworkId)
deriving DecidableEq, Repr

/-- `xcm::v3::junctions::Junctions`: `Here` or `X1`..`X8` (fixed arity tuples in v3). -/
inductive Junctions
  | Here
  | X1 (j1 : Junction)
  | X2 (j1 j2 : Junction)
  | X3 (j1 j2 j3 : Junction)
  | X4 (j1 j2 j3 j4 : Junction)
  | X5 (j1 j2 j3 j4 j5 : Junction)
  | X6 (j1 j2 j3 j4 j5 j6 : Junction)
  | X7 (j1 j2 j3 j4 j5 j6 j7 : Junction)
  | X8 (j1 j2 j3 j4 j5 j6 j7 j8 : Junction)
deriving DecidableEq, Repr

/-- `staging_xcm::v3::multilocation::MultiLocation`. -/
structure MultiLocation where
  parents : Nat
  interior : Junctions
deriving DecidableEq, Repr

/-- `staging_xcm::v4::junction::Junction` (the v4 junction set; same shape as v3
for the constructors the code observes). -/
inductive JunctionV4
  | Parachain (id : Nat)
  | AccountId32 (network : Option NetworkId) (id : List UInt8)
  | AccountIndex64 (network : Option NetworkId) (index : Nat)
  | AccountKey20 (network : Option NetworkId) (key : List UInt8)
  | PalletInstance (index : Nat)
  | GeneralIndex (value : Nat)
  | GeneralKey (length : Nat) (data : List UInt8)
  | OnlyChild
  | Plurality
  | GlobalConsensus (network : NetworkId)
deriving DecidableEq, Repr

/-- `staging_xcm::v4::junctions::Junctions`: in v4 each `Xn` carries an array
`[Junction; n]`; modelled with `n` explicit components, `j1` being index 0. -/
inductive JunctionsV4
  | Here
  | X1 (j1 : JunctionV4)
  | X2 (j1 j2 : JunctionV4)
  | X3 (j1 j2 j3 : JunctionV4)
  | X4 (j1 j2 j3 j4 : JunctionV4)
  | X5 (j1 j2 j3 j4 j5 : JunctionV4)
  | X6 (j1 j2 j3 j4 j5 j6 : JunctionV4)
  | X7 (j1 j2 j3 j4 j5 j6 j7 : JunctionV4)
  | X8 (j1 j2 j3 j4 j5 j6 j7 j8 : JunctionV4)
deriving DecidableEq, Repr

/-- `staging_xcm::v4::location::Location`. -/
structure Location where
  parents : Nat
  interior : JunctionsV4
deriving DecidableEq, Repr

/-- `xcm::v3::multiasset::AssetId`. -/
inductive AssetId
  | Concrete (location : MultiLocation)
  | Abstract (bytes : List UInt8)
deriving DecidableEq, Repr

/-- `xcm::v3::multiasset::Fungibility` (the `NonFungible` asset-instance payload is
never inspected by the sources and is omitted). -/
inductive Fungibility
  | Fungible (amount : Nat)
  | NonFungible
deriving DecidableEq, Repr

/-- `xcm::v3::multiasset::MultiAsset`; the Rust field `fun` is a Lean keyword and is
renamed `fungibility`. -/
structure MultiAsset where
  id : AssetId
  fungibility : Fungibility
deriving DecidableEq, Repr

/-- `xcm::VersionedLocation`. The code only inspects the `V3` payload; the payloads
of the other version constructors are never read and are omitted. -/
inductive VersionedLocation
  | V2
  | V3 (location : MultiLocation)
  | V4 (location : Location)
deriving DecidableEq, Repr

/-- `xcm::VersionedAssets`. As above, only the `V3` payload is ever read. -/
inductive VersionedAssets
  | V2
  | V3 (assets : List MultiAsset)
  | V4
deriving DecidableEq, Repr

/-! ## `src/error.rs` -/

/-- The `Error` enum from `src/error.rs`; the `Subxt` variant's boxed payload is
never inspected by the sources and is omitted. -/
inductive Error
  | InvalidMetadata
  | Subxt
  | UnsuccessfulXcmMessage
  | GeneratePayloadFailed
deriving DecidableEq, Repr

/-! ## External collaborators -/

/-- A decoded `pallet_assets` metadata storage entry. `name` stands for the result
of `String::from_utf8` on the stored name bytes: `some s` when the bytes are valid
UTF-8 spelling `s`, `none` when they are not. -/
structure AssetMetadataEntry where
  name : Option String
  decimals : Nat
deriving DecidableEq, Repr

/-- The storage-read handle of a block (subxt `Storage`): each fetch may fail with a
connectivity error (`Except.error`) or return an optional entry. -/
structure StorageModel where
  assetsMetadata : Nat → Except Unit (Option AssetMetadataEntry)
  foreignAssetsMetadata : Location → Except Unit (Option AssetMetadataEntry)

/-- External pure library functions the sources call: the two sp_core ss58 encodings
(`to_ss58check_with_version(custom 0)` and `to_ss58check`) applied to 32 raw account
bytes, and the derived `Debug` formatting of a v4 `Location` used in the
foreign-asset fallback name. -/
structure ExternalFns where
  toAhAddress : List UInt8 → String
  toGenericAddress : List UInt8 → String
  debugLocation : Location → String

/-! ## `src/helpers.rs` -/

/-- The inner helper of `is_teleportable_to_sibling` in `src/helpers.rs`. -/
def junction_starts_with_para_id (para_id : Nat) (junction : JunctionV4) : Bool :=
  match junction with
  | .Parachain id => id == para_id
  | _ => false

/-- `is_teleportable_to_sibling` from `src/helpers.rs`: parents must be 1 and the
first interior junction must be `Parachain(sibling_parachain_id)`. -/
def is_teleportable_to_sibling (asset_id : Location) (sibling_parachain_id : Nat) : Bool :=
  match asset_id.parents, asset_id.interior with
  | 1, .X1 j1 => junction_starts_with_para_id sibling_parachain_id j1
  | 1, .X2 j1 _ => junction_starts_with_para_id sibling_parachain_id j1
  | 1, .X3 j1 _ _ => junction_starts_with_para_id sibling_parachain_id j1
  | 1, .X4 j1 _ _ _ => junction_starts_with_para_id sibling_parachain_id j1
  | 1, .X5 j1 _ _ _ _ => junction_starts_with_para_id sibling_parachain_id j1
  | 1, .X6 j1 _ _ _ _ _ => junction_starts_with_para_id sibling_parachain_id j1
  | 1, .X7 j1 _ _ _ _ _ _ => junction_starts_with_para_id sibling_parachain_id j1
  | 1, .X8 j1 _ _ _ _ _ _ _ => junction_starts_with_para_id sibling_parachain_id j1
  | _, _ => false

/-- `extract_asset_metadata_values` from `src/helpers.rs`: one storage fetch by
local asset id; a fetch failure propagates (`Error.Subxt`), a missing entry or
invalid UTF-8 name falls back to a synthesized placeholder, decimals default to 0.
Note the Rust spells the two fallbacks differently: `"Asset id:"` for invalid UTF-8
and `"Asset Id:"` for a missing entry. -/
def extract_asset_metadata_values (storage_api : StorageModel) (asset_id : Nat) :
    Except Error AssetMetadataValues :=
  match storage_api.assetsMetadata asset_id with
  | .error _ => .error .Subxt
  | .ok asset_metadata =>
    let decimals := (asset_metadata.map (fun m => m.decimals)).getD 0
    let asset_name :=
      match asset_metadata.map (fun m => m.name) with
      | some name_bytes => name_bytes.getD ("Asset id: " ++ toString asset_id)
      | none => "Asset Id: " ++ toString asset_id
    .ok ⟨asset_name, decimals⟩

/-- `extract_foreign_asset_metadata_values` from `src/helpers.rs`: as above but
keyed by a v4 `Location`, with the `Debug`-formatted location in the fallbacks. -/
def extract_foreign_asset_metadata_values (c : ExternalFns) (storage_api : StorageModel)
    (asset_id : Location) : Except Error AssetMetadataValues :=
  match storage_api.foreignAssetsMetadata asset_id with
  | .error _ => .error .Subxt
  | .ok asset_metadata =>
    let decimals := (asset_metadata.map (fun m => m.decimals)).getD 0
    let asset_name :=
      match asset_metadata.map (fun m => m.name) with
      | some name_bytes => name_bytes.getD ("Asset location: " ++ c.debugLocation asset_id)
      | none => "Asset location: " ++ c.debugLocation asset_id
    .ok ⟨asset_name, decimals⟩

/-- `to_decimal_f64` from `src/helpers.rs`. The Rust computes `value as f64 /
10u128.pow(decimals) as f64`; the model carries the exact rational quotient (see the
file header note on amounts). -/
def to_decimal_f64 (value : Nat) (decimals : Nat) : ℚ :=
  (value : ℚ) / ((10 : ℚ) ^ decimals)

/-! ## `src/incoming_parser.rs`: data model of events -/

/-- `subxt::events::Phase`. -/
inductive Phase
  | Initialization
  | ApplyExtrinsic (index : Nat)
  | Finalization
deriving DecidableEq, Repr

/-- `message_queue::events::processed::Origin` (`XcmAggregatedOrigin` alias in
`src/helpers.rs`): `Here`, `Parent` or `Sibling(Id(u32))`. -/
inductive XcmAggregatedOrigin
  | Here
  | Parent
  | Sibling (id : Nat)
deriving DecidableEq, Repr

/-- `balances::events::Minted` payload (`who : AccountId32` as 32 raw bytes,
`amount : u128`). -/
structure MintedEvent where
  who : List UInt8
  amount : Nat
deriving DecidableEq, Repr

/-- `assets::events::Issued` payload. -/
structure AssetsIssuedEvent where
  asset_id : Nat
  owner : List UInt8
  amount : Nat
deriving DecidableEq, Repr

/-- `foreign_assets::events::Issued` payload: the asset id is a v4 `Location`. -/
structure ForeignAssetsIssuedEvent where
  asset_id : Location
  owner : List UInt8
  amount : Nat
deriving DecidableEq, Repr

/-- `message_queue::events::Processed` payload (the unread `id`/`weight_used`
fields are omitted). -/
structure ProcessedEvent where
  origin : XcmAggregatedOrigin
  success : Bool
deriving DecidableEq, Repr

/-- The typed payload carried by an event's raw bytes: one of the four decodable
event shapes, or bytes that decode as none of them. -/
inductive EventData
  | balancesMinted (e : MintedEvent)
  | assetsIssued (e : AssetsIssuedEvent)
  | foreignAssetsIssued (e : ForeignAssetsIssuedEvent)
  | messageQueueProcessed (e : ProcessedEvent)
  | undecodable
deriving DecidableEq, Repr

/-- `subxt::events::EventDetails`: phase, pallet name, variant name, and the typed
payload behind the raw bytes. -/
structure EventDetails where
  phase : Phase
  pallet_name : String
  variant_name : String
  data : EventData
deriving DecidableEq, Repr

/-- `event.as_event::<balances::events::Minted>().ok().flatten()`: `some` iff the
pallet/variant names match and the bytes decode as that event. -/
def as_minted_event (event : EventDetails) : Option MintedEvent :=
  if event.pallet_name = "Balances" ∧ event.variant_name = "Minted" then
    match event.data with
    | .balancesMinted e => some e
    | _ => none
  else none

/-- `event.as_event::<assets::events::Issued>().ok().flatten()`. -/
def as_assets_issued_event (event : EventDetails) : Option AssetsIssuedEvent :=
  if event.pallet_name = "Assets" ∧ event.variant_name = "Issued" then
    match event.data with
    | .assetsIssued e => some e
    | _ => none
  else none

/-- `event.as_event::<foreign_assets::events::Issued>().ok().flatten()`. -/
def as_foreign_assets_issued_event (event : EventDetails) : Option ForeignAssetsIssuedEvent :=
  if event.pallet_name = "ForeignAssets" ∧ event.variant_name = "Issued" then
    match event.data with
    | .foreignAssetsIssued e => some e
    | _ => none
  else none

/-- `event.as_event::<message_queue::events::Processed>()` collapsed to an
`Option` (the code only distinguishes `Ok(Some(_))` from the rest). -/
def as_processed_event (event : EventDetails) : Option ProcessedEvent :=
  if event.pallet_name = "MessageQueue" ∧ event.variant_name = "Processed" then
    match event.data with
    | .messageQueueProcessed e => some e
    | _ => none
  else none

/-- Modelled from the spec: `is_sibling_concrete_asset_for_message_origin` is called
at `src/incoming_parser.rs:173` but its definition is missing from `src/`
(`src/helpers.rs` only defines `is_teleportable_to_sibling`). Per spec §4.1/§4.3 the
foreign-asset transfer is a Teleport iff the asset location is concrete for the
sibling origin, using the shared teleportability rule; a non-sibling origin is not
concrete for any sibling. -/
def is_sibling_concrete_asset_for_message_origin (message_origin : XcmAggregatedOrigin)
    (asset_id : Location) : Bool :=
  match message_origin with
  | .Sibling id => is_teleportable_to_sibling asset_id id
  | _ => false

/-- `XcmIncomingTransfer` from `src/incoming_parser.rs` (the `OriginChain`
newtype around `XcmAggregatedOrigin` only adds serialization and is inlined). -/
structure XcmIncomingTransfer where
  block_number : Nat
  origin_chain : XcmAggregatedOrigin
  receiver : String
  asset : String
  amount : ℚ
  transfer_type : TransferType
deriving DecidableEq, Repr

/-- `generate_xcm_received_payload` from `src/incoming_parser.rs`: decode the
processed-message event, reject unsuccessful messages, then match the
`(origin, minted?, assets-issued?, foreign-assets-issued?)` tuple against the
closed correlation table. -/
def generate_xcm_received_payload (c : ExternalFns) (storage_api : StorageModel)
    (block_number : Nat) (last_issuance_event : Option EventDetails)
    (processed_message_event : EventDetails) : Except Error XcmIncomingTransfer :=
  match as_processed_event processed_message_event with
  | none => .error .GeneratePayloadFailed
  | some decoded =>
    if !decoded.success then .error .UnsuccessfulXcmMessage
    else
      let message_origin := decoded.origin
      match message_origin,
        last_issuance_event.map (fun event => as_minted_event event),
        last_issuance_event.map (fun event => as_assets_issued_event event),
        last_issuance_event.map (fun event => as_foreign_assets_issued_event event) with
      -- DOT from relay is always Teleport
      | .Parent, some (some minted_event), some none, some none =>
        .ok ⟨block_number, message_origin, c.toAhAddress minted_event.who, "DOT",
          to_decimal_f64 minted_event.amount DOT_DECIMALS, .Teleport⟩
      -- DOT from sibling parachains is always reserve
      | .Sibling sid, some (some minted_event), some none, some none =>
        .ok ⟨block_number, .Sibling sid, c.toAhAddress minted_event.who, "DOT",
          to_decimal_f64 minted_event.amount DOT_DECIMALS, .Reserve⟩
      | .Sibling sid, some none, some (some issue_event), some none =>
        match extract_asset_metadata_values storage_api issue_event.asset_id with
        | .error e => .error e
        | .ok md =>
          .ok ⟨block_number, .Sibling sid, c.toAhAddress issue_event.owner, md.asset_name,
            to_decimal_f64 issue_event.amount md.decimals, .Reserve⟩
      | .Sibling sid, some none, some none, some (some issue_event) =>
        match extract_foreign_asset_metadata_values c storage_api issue_event.asset_id with
        | .error e => .error e
        | .ok md =>
          let transfer_type :=
            if is_sibling_concrete_asset_for_message_origin (.Sibling sid) issue_event.asset_id
            then TransferType.Teleport else TransferType.Reserve
          .ok ⟨block_number, .Sibling sid, c.toAhAddress issue_event.owner, md.asset_name,
            to_decimal_f64 issue_event.amount md.decimals, transfer_type⟩
      -- Any other combination isn't a valid Xcm transfer
      | _, _, _, _ => .error .GeneratePayloadFailed

/-- One step of routing in the event loop of `get_incoming_xcm_transfers_at_block_hash`:
is this event one of the three finalization-phase issuance arms? -/
def is_issuance_arm (event : EventDetails) : Bool :=
  event.phase == .Finalization &&
    ((event.pallet_name == "Assets" && event.variant_name == "Issued") ||
     (event.pallet_name == "ForeignAssets" && event.variant_name == "Issued") ||
     (event.pallet_name == "Balances" && event.variant_name == "Minted"))

/-- Is this event the finalization-phase `MessageQueue::Processed` arm? -/
def is_processed_arm (event : EventDetails) : Bool :=
  event.phase == .Finalization && event.pallet_name == "MessageQueue" &&
    event.variant_name == "Processed"

/-- The event loop of `get_incoming_xcm_transfers_at_block_hash`: events that fail
to decode (`Err` in the iterator) are skipped; issuance events overwrite
`last_issuance_event`; a processed event hands the pending issuance to
`generate_xcm_received_payload` (via `Option::take`, clearing the state) and pushes
the payload only on success. -/
def scan_incoming_events (c : ExternalFns) (storage_api : StorageModel) (block_number : Nat) :
    List (Except Unit EventDetails) → Option EventDetails → List XcmIncomingTransfer
  | [], _ => []
  | .error _ :: rest, last_issuance_event =>
    scan_incoming_events c storage_api block_number rest last_issuance_event
  | .ok event :: rest, last_issuance_event =>
    if is_issuance_arm event then
      scan_incoming_events c storage_api block_number rest (some event)
    else if is_processed_arm event then
      match generate_xcm_received_payload c storage_api block_number last_issuance_event event with
      | .ok payload => payload :: scan_incoming_events c storage_api block_number rest none
      | .error _ => scan_incoming_events c storage_api block_number rest none
    else
      scan_incoming_events c storage_api block_number rest last_issuance_event

/-! ## `src/outgoing_parser.rs` -/

/-- `DestinationChain` from `src/outgoing_parser.rs`. -/
inductive DestinationChain
  | Polkadot
  | Kusama
  | PolkadotParachain (id : Nat)
  | KusamaParachain (id : Nat)
  | Ethereum (chain_id : Nat)
  | Unsupported
deriving DecidableEq, Repr

/-- The `From<&MultiLocation> for DestinationChain` impl in `src/outgoing_parser.rs`. -/
def destination_chain_from_multilocation (location : MultiLocation) : DestinationChain :=
  if location.parents = 1 then
    match location.interior with
    | .Here => .Polkadot
    | .X1 (.Parachain id) => .PolkadotParachain id
    | _ => .Unsupported
  else if location.parents = 2 then
    match location.interior with
    | .X1 junction =>
      match junction with
      | .GlobalConsensus (.Ethereum chain_id) => .Ethereum chain_id
      | .GlobalConsensus .Kusama => .Kusama
      | _ => .Unsupported
    | .X2 (.GlobalConsensus .Kusama) (.Parachain id) => .KusamaParachain id
    | _ => .Unsupported
  else
    .Unsupported

/-- The three transfer-call shapes `src/outgoing_parser.rs` tries to decode, plus
the case of an extrinsic that is none of them: the typed payload behind an
extrinsic's raw bytes. -/
inductive CallData
  | limitedTeleportAssets (dest beneficiary : VersionedLocation) (assets : VersionedAssets)
  | limitedReserveTransferAssets (dest beneficiary : VersionedLocation) (assets : VersionedAssets)
  | transferAssets (dest beneficiary : VersionedLocation) (assets : VersionedAssets)
  | undecodable
deriving DecidableEq, Repr

/-- `subxt::blocks::ExtrinsicDetails`: the typed call payload and the optional
signer bytes (`address_bytes()` returns the SCALE bytes of the `MultiAddress`). -/
structure ExtrinsicDetails where
  call : CallData
  address_bytes : Option (List UInt8)
deriving DecidableEq, Repr

/-- `raw_extrinsic.as_extrinsic::<LimitedTeleportAssets>()` collapsed to an
`Option` of `(dest, beneficiary, assets)` (the code only distinguishes
`Ok(Some(_))` from the rest). -/
def as_limited_teleport_assets (extrinsic : ExtrinsicDetails) :
    Option (VersionedLocation × VersionedLocation × VersionedAssets) :=
  match extrinsic.call with
  | .limitedTeleportAssets dest beneficiary assets => some (dest, beneficiary, assets)
  | _ => none

/-- `raw_extrinsic.as_extrinsic::<LimitedReserveTransferAssets>()`. -/
def as_limited_reserve_transfer_assets (extrinsic : ExtrinsicDetails) :
    Option (VersionedLocation × VersionedLocation × VersionedAssets) :=
  match extrinsic.call with
  | .limitedReserveTransferAssets dest beneficiary assets => some (dest, beneficiary, assets)
  | _ => none

/-- `raw_extrinsic.as_extrinsic::<TransferAssets>()`. -/
def as_transfer_assets (extrinsic : ExtrinsicDetails) :
    Option (VersionedLocation × VersionedLocation × VersionedAssets) :=
  match extrinsic.call with
  | .transferAssets dest beneficiary assets => some (dest, beneficiary, assets)
  | _ => none

/-- One hexadecimal digit, lowercase, as produced by `hex::encode`. -/
def hexDigitChar (n : Nat) : Char :=
  if n < 10 then Char.ofNat (48 + n) else Char.ofNat (87 + n)

/-- `hex::encode`: lowercase hexadecimal rendering of a byte list. -/
def hexEncode (bytes : List UInt8) : String :=
  String.mk (bytes.foldr
    (fun b acc => hexDigitChar (b.toNat / 16) :: hexDigitChar (b.toNat % 16) :: acc) [])

/-- `XcmOutgoingTransfer` from `src/outgoing_parser.rs`. -/
structure XcmOutgoingTransfer where
  block_number : Nat
  destination_chain : DestinationChain
  sender : String
  beneficiary : String
  asset : String
  amount : ℚ
  transfer_type : TransferType
deriving DecidableEq, Repr

/-- The destination part of the `decode_extrinsic_and_get_info!` macro: only a
`V3` destination is supported; its location converts totally to a
`DestinationChain` (including `Unsupported`). -/
def get_destination_chain (dest : VersionedLocation) : Except Error DestinationChain :=
  match dest with
  | .V3 location => .ok (destination_chain_from_multilocation location)
  | _ => .error .GeneratePayloadFailed

/-- The beneficiary part of the `decode_extrinsic_and_get_info!` macro: a `V3`
location whose interior is `X1(AccountId32)` (generic ss58 address) or
`X1(AccountKey20)` (0x-prefixed lowercase hex); anything else fails. -/
def get_beneficiary (c : ExternalFns) (beneficiary : VersionedLocation) : Except Error String :=
  match beneficiary with
  | .V3 location =>
    match location.interior with
    | .X1 (.AccountId32 _ id) => .ok (c.toGenericAddress id)
    | .X1 (.AccountKey20 _ key) => .ok ("0x" ++ hexEncode key)
    | _ => .error .GeneratePayloadFailed
  | _ => .error .GeneratePayloadFailed

/-- The sender part of the `decode_extrinsic_and_get_info!` macro. `none` models
the Rust panic: `bytes[1..].try_into().expect(..)` aborts unless the signer bytes
are exactly one `MultiAddress` discriminant byte plus 32 account bytes; an absent
signer yields the literal `"Unsigned message"`. -/
def get_sender (c : ExternalFns) (raw_extrinsic : ExtrinsicDetails) : Option String :=
  match raw_extrinsic.address_bytes with
  | some bytes =>
    if bytes.length = 33 then some (c.toAhAddress (bytes.drop 1)) else none
  | none => some "Unsigned message"

/-- The common part of the three payload generators
(`decode_extrinsic_and_get_info!` after a successful call decode), in the macro's
evaluation order: destination, then beneficiary, then sender. The outer `Option` is
`none` exactly when the sender extraction panics. -/
def decode_extrinsic_common (c : ExternalFns) (raw_extrinsic : ExtrinsicDetails)
    (dest beneficiary : VersionedLocation) :
    Option (Except Error (DestinationChain × String × String)) :=
  match get_destination_chain dest with
  | .error e => some (.error e)
  | .ok destination_chain =>
    match get_beneficiary c beneficiary with
    | .error e => some (.error e)
    | .ok beneficiary_str =>
      match get_sender c raw_extrinsic with
      | none => none
      | some sender => some (.ok (destination_chain, sender, beneficiary_str))

/-- The per-asset match inside `generate_xcm_sent_teleport_payload`: DOT
(`{parents:1, Here}`) or a sibling parachain's native token (`{parents:1,
X1(Parachain)}`, metadata fetched from the foreign-assets registry); other shapes
yield `none` (the asset is skipped). -/
def teleport_asset_details (c : ExternalFns) (storage_api : StorageModel) (asset : MultiAsset) :
    Except Error (Option (String × Nat × Nat)) :=
  match asset.id, asset.fungibility with
  | .Concrete ⟨1, .Here⟩, .Fungible amount => .ok (some ("DOT", DOT_DECIMALS, amount))
  | .Concrete ⟨1, .X1 (.Parachain para_id)⟩, .Fungible amount =>
    match extract_foreign_asset_metadata_values c storage_api
        ⟨1, .X1 (.Parachain para_id)⟩ with
    | .error e => .error e
    | .ok md => .ok (some (md.asset_name, md.decimals, amount))
  | _, _ => .ok none

/-- The per-asset match inside `generate_xcm_sent_reserve_transfer_payload`: DOT,
a local `pallet_assets` asset (`{parents:0, X2(PalletInstance(50),
GeneralIndex(id))}`, the `u128` index cast `as u32`, i.e. truncated mod 2^32), or a
sibling parachain's native token; other shapes are skipped. -/
def reserve_asset_details (c : ExternalFns) (storage_api : StorageModel) (asset : MultiAsset) :
    Except Error (Option (String × Nat × Nat)) :=
  match asset.id, asset.fungibility with
  | .Concrete ⟨1, .Here⟩, .Fungible amount => .ok (some ("DOT", DOT_DECIMALS, amount))
  | .Concrete ⟨0, .X2 (.PalletInstance 50) (.GeneralIndex asset_id)⟩, .Fungible amount =>
    match extract_asset_metadata_values storage_api (asset_id % 2 ^ 32) with
    | .error e => .error e
    | .ok md => .ok (some (md.asset_name, md.decimals, amount))
  | .Concrete ⟨1, .X1 (.Parachain para_id)⟩, .Fungible amount =>
    match extract_foreign_asset_metadata_values c storage_api
        ⟨1, .X1 (.Parachain para_id)⟩ with
    | .error e => .error e
    | .ok md => .ok (some (md.asset_name, md.decimals, amount))
  | _, _ => .ok none

/-- The per-asset match inside `generate_xcm_sent_transfer_assets_payload`: as the
reserve case but also computing teleportability — DOT is teleportable iff the
destination is the relay (`Polkadot`); local assets never are; a sibling's native
token is teleportable iff `is_teleportable_to_sibling` holds against a
`PolkadotParachain` destination. -/
def transfer_assets_asset_details (c : ExternalFns) (storage_api : StorageModel)
    (destination_chain : DestinationChain) (asset : MultiAsset) :
    Except Error (Option (String × Nat × Nat × Bool)) :=
  match asset.id, asset.fungibility with
  | .Concrete ⟨1, .Here⟩, .Fungible amount =>
    .ok (some ("DOT", DOT_DECIMALS, amount, destination_chain = DestinationChain.Polkadot))
  | .Concrete ⟨0, .X2 (.PalletInstance 50) (.GeneralIndex asset_id)⟩, .Fungible amount =>
    match extract_asset_metadata_values storage_api (asset_id % 2 ^ 32) with
    | .error e => .error e
    -- These assets aren't teleportable
    | .ok md => .ok (some (md.asset_name, md.decimals, amount, false))
  | .Concrete ⟨1, .X1 (.Parachain para_id)⟩, .Fungible amount =>
    let asset_location_in_v4 : Location := ⟨1, .X1 (.Parachain para_id)⟩
    match extract_foreign_asset_metadata_values c storage_api asset_location_in_v4 with
    | .error e => .error e
    | .ok md =>
      let is_teleportable :=
        match destination_chain with
        | .PolkadotParachain sibling_parachain_id =>
          is_teleportable_to_sibling asset_location_in_v4 sibling_parachain_id
        | _ => false
      .ok (some (md.asset_name, md.decimals, amount, is_teleportable))
  | _, _ => .ok none

/-- The asset loop of `generate_xcm_sent_teleport_payload`: push one `Teleport`
record per supported asset, skip unsupported ones, propagate storage errors. -/
def teleport_assets_loop (c : ExternalFns) (storage_api : StorageModel) (block_number : Nat)
    (destination_chain : DestinationChain) (sender beneficiary : String) :
    List MultiAsset → Except Error (List XcmOutgoingTransfer)
  | [] => .ok []
  | asset :: rest =>
    match teleport_asset_details c storage_api asset with
    | .error e => .error e
    | .ok none => teleport_assets_loop c storage_api block_number destination_chain
        sender beneficiary rest
    | .ok (some (asset_name, decimals, amount)) =>
      match teleport_assets_loop c storage_api block_number destination_chain
          sender beneficiary rest with
      | .error e => .error e
      | .ok output =>
        .ok (⟨block_number, destination_chain, sender, beneficiary, asset_name,
          to_decimal_f64 amount decimals, .Teleport⟩ :: output)

/-- The asset loop of `generate_xcm_sent_reserve_transfer_payload`: one `Reserve`
record per supported asset. -/
def reserve_assets_loop (c : ExternalFns) (storage_api : StorageModel) (block_number : Nat)
    (destination_chain : DestinationChain) (sender beneficiary : String) :
    List MultiAsset → Except Error (List XcmOutgoingTransfer)
  | [] => .ok []
  | asset :: rest =>
    match reserve_asset_details c storage_api asset with
    | .error e => .error e
    | .ok none => reserve_assets_loop c storage_api block_number destination_chain
        sender beneficiary rest
    | .ok (some (asset_name, decimals, amount)) =>
      match reserve_assets_loop c storage_api block_number destination_chain
          sender beneficiary rest with
      | .error e => .error e
      | .ok output =>
        .ok (⟨block_number, destination_chain, sender, beneficiary, asset_name,
          to_decimal_f64 amount decimals, .Reserve⟩ :: output)

/-- The asset loop of `generate_xcm_sent_transfer_assets_payload`: per-asset
transfer type from the teleportability flag. -/
def transfer_assets_loop (c : ExternalFns) (storage_api : StorageModel) (block_number : Nat)
    (destination_chain : DestinationChain) (sender beneficiary : String) :
    List MultiAsset → Except Error (List XcmOutgoingTransfer)
  | [] => .ok []
  | asset :: rest =>
    match transfer_assets_asset_details c storage_api destination_chain asset with
    | .error e => .error e
    | .ok none => transfer_assets_loop c storage_api block_number destination_chain
        sender beneficiary rest
    | .ok (some (asset_name, decimals, amount, is_teleportable)) =>
      match transfer_assets_loop c storage_api block_number destination_chain
          sender beneficiary rest with
      | .error e => .error e
      | .ok output =>
        .ok (⟨block_number, destination_chain, sender, beneficiary, asset_name,
          to_decimal_f64 amount decimals,
          if is_teleportable then .Teleport else .Reserve⟩ :: output)

/-- `generate_xcm_sent_teleport_payload` from `src/outgoing_parser.rs`. The outer
`Option` is `none` exactly when the sender extraction panics; a non-`V3` assets
version yields an empty record list (not an error). -/
def generate_xcm_sent_teleport_payload (c : ExternalFns) (storage_api : StorageModel)
    (block_number : Nat) (raw_extrinsic : ExtrinsicDetails) :
    Option (Except Error (List XcmOutgoingTransfer)) :=
  match as_limited_teleport_assets raw_extrinsic with
  | none => some (.error .GeneratePayloadFailed)
  | some (dest, beneficiary, assets) =>
    match decode_extrinsic_common c raw_extrinsic dest beneficiary with
    | none => none
    | some (.error e) => some (.error e)
    | some (.ok (destination_chain, sender, beneficiary_str)) =>
      match assets with
      | .V3 asset_list =>
        some (teleport_assets_loop c storage_api block_number destination_chain
          sender beneficiary_str asset_list)
      | _ => some (.ok [])

/-- `generate_xcm_sent_reserve_transfer_payload` from `src/outgoing_parser.rs`. -/
def generate_xcm_sent_reserve_transfer_payload (c : ExternalFns) (storage_api : StorageModel)
    (block_number : Nat) (raw_extrinsic : ExtrinsicDetails) :
    Option (Except Error (List XcmOutgoingTransfer)) :=
  match as_limited_reserve_transfer_assets raw_extrinsic with
  | none => some (.error .GeneratePayloadFailed)
  | some (dest, beneficiary, assets) =>
    match decode_extrinsic_common c raw_extrinsic dest beneficiary with
    | none => none
    | some (.error e) => some (.error e)
    | some (.ok (destination_chain, sender, beneficiary_str)) =>
      match assets with
      | .V3 asset_list =>
        some (reserve_assets_loop c storage_api block_number destination_chain
          sender beneficiary_str asset_list)
      | _ => some (.ok [])

/-- `generate_xcm_sent_transfer_assets_payload` from `src/outgoing_parser.rs`. -/
def generate_xcm_sent_transfer_assets_payload (c : ExternalFns) (storage_api : StorageModel)
    (block_number : Nat) (raw_extrinsic : ExtrinsicDetails) :
    Option (Except Error (List XcmOutgoingTransfer)) :=
  match as_transfer_assets raw_extrinsic with
  | none => some (.error .GeneratePayloadFailed)
  | some (dest, beneficiary, assets) =>
    match decode_extrinsic_common c raw_extrinsic dest beneficiary with
    | none => none
    | some (.error e) => some (.error e)
    | some (.ok (destination_chain, sender, beneficiary_str)) =>
      match assets with
      | .V3 asset_list =>
        some (transfer_assets_loop c storage_api block_number destination_chain
          sender beneficiary_str asset_list)
      | _ => some (.ok [])

/-- The per-extrinsic `if let Ok .. else if let Ok ..` chain in
`get_outgoing_xcm_transfers_at_block_hash`: teleport, then reserve-transfer, then
generic-transfer; an `Err` from any generator is swallowed and the next shape is
tried; if all three fail the extrinsic contributes nothing. `none` propagates a
panic. -/
def process_outgoing_extrinsic (c : ExternalFns) (storage_api : StorageModel)
    (block_number : Nat) (extrinsic : ExtrinsicDetails) : Option (List XcmOutgoingTransfer) :=
  match generate_xcm_sent_teleport_payload c storage_api block_number extrinsic with
  | none => none
  | some (.ok payload) => some payload
  | some (.error _) =>
    match generate_xcm_sent_reserve_transfer_payload c storage_api block_number extrinsic with
    | none => none
    | some (.ok payload) => some payload
    | some (.error _) =>
      match generate_xcm_sent_transfer_assets_payload c storage_api block_number extrinsic with
      | none => none
      | some (.ok payload) => some payload
      | some (.error _) => some []

/-- The extrinsic loop of `get_outgoing_xcm_transfers_at_block_hash`: concatenate
each extrinsic's contribution in order. -/
def process_outgoing_extrinsics (c : ExternalFns) (storage_api : StorageModel)
    (block_number : Nat) : List ExtrinsicDetails → Option (List XcmOutgoingTransfer)
  | [] => some []
  | extrinsic :: rest =>
    match process_outgoing_extrinsic c storage_api block_number extrinsic with
    | none => none
    | some payload =>
      match process_outgoing_extrinsics c storage_api block_number rest with
      | none => none
      | some output => some (payload ++ output)

/-! ## Block / API model and the top-level queries -/

/-- The `Block` value the collaborators hand to the engine: the number, the event
and extrinsic fetches (each may fail with a subxt error, and each event in the
iterator may individually fail to decode), and the storage handle at this block. -/
structure Block where
  number : Nat
  events : Except Unit (List (Except Unit EventDetails))
  extrinsics : Except Unit (List ExtrinsicDetails)
  storage : StorageModel

/-- The `OnlineClient` at a given block hash: fetching the block itself may fail. -/
structure ApiAtBlockHash where
  block : Except Unit Block

/-- `get_incoming_xcm_transfers_at_block_hash` from `src/incoming_parser.rs`:
block fetch and events fetch propagate failures; the scan itself never fails. -/
def get_incoming_xcm_transfers_at_block_hash (c : ExternalFns) (api : ApiAtBlockHash) :
    Except Error (List XcmIncomingTransfer) :=
  match api.block with
  | .error _ => .error .Subxt
  | .ok block =>
    match block.events with
    | .error _ => .error .Subxt
    | .ok events =>
      .ok (scan_incoming_events c block.storage block.number events none)

/-- `get_outgoing_xcm_transfers_at_block_hash` from `src/outgoing_parser.rs`. The
outer `Option` is `none` exactly when some extrinsic's sender extraction panics. -/
def get_outgoing_xcm_transfers_at_block_hash (c : ExternalFns) (api : ApiAtBlockHash) :
    Option (Except Error (List XcmOutgoingTransfer)) :=
  match api.block with
  | .error _ => some (.error .Subxt)
  | .ok block =>
    match block.extrinsics with
    | .error _ => some (.error .Subxt)
    | .ok extrinsics =>
      match process_outgoing_extrinsics c block.storage block.number extrinsics with
      | none => none
      | some output => some (.ok output)

/-- The `XcmTransfer` enum wrapping both record kinds. Its declaration is missing
from `src/` (`src/types.rs` does not define it), but its two constructors and
payloads are fully determined by its uses in `src/helpers.rs`
(`XcmTransfer::ReceivedTransfer(..)` / `XcmTransfer::SentTransfer(..)`). -/
inductive XcmTransfer
  | ReceivedTransfer (transfer : XcmIncomingTransfer)
  | SentTransfer (transfer : XcmOutgoingTransfer)
deriving DecidableEq, Repr

/-- `get_all_transfers_at_block_hash` from `src/helpers.rs`: run the incoming query
(`?` propagates its error), push each incoming record wrapped as `ReceivedTransfer`,
then run the outgoing query and push each of its records wrapped as `SentTransfer`.
The pushes are modelled exactly as the Rust `for_each(push)` loops (left folds). -/
def get_all_transfers_at_block_hash (c : ExternalFns) (api : ApiAtBlockHash) :
    Option (Except Error (List XcmTransfer)) :=
  match get_incoming_xcm_transfers_at_block_hash c api with
  | .error e => some (.error e)
  | .ok incoming =>
    let output := incoming.foldl
      (fun acc incoming_transfer => acc ++ [XcmTransfer.ReceivedTransfer incoming_transfer]) []
    match get_outgoing_xcm_transfers_at_block_hash c api with
    | none => none
    | some (.error e) => some (.error e)
    | some (.ok outgoing) =>
      some (.ok (outgoing.foldl
        (fun acc outgoing_transfer => acc ++ [XcmTransfer.SentTransfer outgoing_transfer])
        output))

/-! ## Spec-side reference definitions and analysis vocabulary -/

/-- Spec §4.2: the destination classification table exactly as the spec words it,
for comparison with `destination_chain_from_multilocation` (Relay = `Polkadot`,
SecondaryRelay = `Kusama`). -/
def spec_destination_classification (location : MultiLocation) : DestinationChain :=
  match location.parents, location.interior with
  | 1, .Here => .Polkadot
  | 1, .X1 (.Parachain id) => .PolkadotParachain id
  | 2, .X1 (.GlobalConsensus (.Ethereum chain_id)) => .Ethereum chain_id
  | 2, .X1 (.GlobalConsensus .Kusama) => .Kusama
  | 2, .X2 (.GlobalConsensus .Kusama) (.Parachain id) => .KusamaParachain id
  | _, _ => .Unsupported

/-- Spec §4.3: the first junction of a v4 interior, used to phrase the
teleportability rule the way the spec words it. -/
def first_interior_junction : JunctionsV4 → Option JunctionV4
  | .Here => none
  | .X1 j1 => some j1
  | .X2 j1 _ => some j1
  | .X3 j1 _ _ => some j1
  | .X4 j1 _ _ _ => some j1
  | .X5 j1 _ _ _ _ => some j1
  | .X6 j1 _ _ _ _ _ => some j1
  | .X7 j1 _ _ _ _ _ _ => some j1
  | .X8 j1 _ _ _ _ _ _ _ => some j1

/-- Is the message origin a sibling parachain? -/
def is_sibling_origin : XcmAggregatedOrigin → Bool
  | .Sibling _ => true
  | _ => false

/-- The supported `(origin, pending issuance)` combinations of the §4.1 correlation
table, phrased over the decoders: a pending event decoding as `Balances::Minted`
correlates with Parent or a sibling; `Assets::Issued` / `ForeignAssets::Issued`
correlate with a sibling only. -/
def supported_incoming_combo (origin : XcmAggregatedOrigin)
    (last_issuance_event : Option EventDetails) : Bool :=
  match last_issuance_event with
  | none => false
  | some event =>
    ((as_minted_event event).isSome && (origin == .Parent || is_sibling_origin origin)) ||
    ((as_assets_issued_event event).isSome && is_sibling_origin origin) ||
    ((as_foreign_assets_issued_event event).isSome && is_sibling_origin origin)

/-- The asset-location shapes the outgoing reserve/generic-transfer loops support:
native DOT, a local `pallet_assets` asset behind `PalletInstance(50)`, or a sibling
parachain's native token — each fungible. -/
def supported_outgoing_asset_shape (asset : MultiAsset) : Bool :=
  match asset.id, asset.fungibility with
  | .Concrete ⟨1, .Here⟩, .Fungible _ => true
  | .Concrete ⟨0, .X2 (.PalletInstance 50) (.GeneralIndex _)⟩, .Fungible _ => true
  | .Concrete ⟨1, .X1 (.Parachain _)⟩, .Fungible _ => true
  | _, _ => false

/-- An extrinsic whose signer bytes, when present, are exactly one discriminant
byte plus 32 account bytes — the condition under which the `expect` in
`decode_extrinsic_and_get_info!` cannot panic. -/
def well_formed_signer (extrinsic : ExtrinsicDetails) : Bool :=
  match extrinsic.address_bytes with
  | some bytes => bytes.length == 33
  | none => true

/-- The contribution one generator's outcome makes to the output when it is the
first of the three decode attempts that matches the extrinsic's call shape:
records on success, nothing on a generation error, a panic propagates. -/
def first_ok_payload :
    Option (Except Error (List XcmOutgoingTransfer)) → Option (List XcmOutgoingTransfer)
  | some (.ok payload) => some payload
  | some (.error _) => some []
  | none => none

/-! ## Concrete fixtures for witnesses and counterexamples -/

/-- A concrete 32-byte account id. -/
def accBytes : List UInt8 := List.replicate 32 7

/-- A concrete instantiation of the external pure functions (the settled claims
never depend on the concrete strings these produce). -/
def testFns : ExternalFns where
  toAhAddress := fun bytes => "ah:" ++ hexEncode bytes
  toGenericAddress := fun bytes => "sub:" ++ hexEncode bytes
  debugLocation := fun _ => "Location"

/-- Storage with no metadata entries (every fetch succeeds and returns nothing). -/
def emptyStorage : StorageModel where
  assetsMetadata := fun _ => .ok none
  foreignAssetsMetadata := fun _ => .ok none

/-- Storage whose every fetch fails with a connectivity error. -/
def failingStorage : StorageModel where
  assetsMetadata := fun _ => .error ()
  foreignAssetsMetadata := fun _ => .error ()

/-- Storage holding the two entries the repository's own tests use: local asset
1984 is Tether USD (6 decimals) and foreign location `(1, X1(Parachain(3370)))` is
LAOS (18 decimals). -/
def sampleStorage : StorageModel where
  assetsMetadata := fun id =>
    .ok (if id = 1984 then some ⟨some "Tether USD", 6⟩ else none)
  foreignAssetsMetadata := fun location =>
    .ok (if location = ⟨1, .X1 (.Parachain 3370)⟩ then some ⟨some "LAOS", 18⟩ else none)

/-- A finalization-phase `Balances::Minted` event. -/
def mintedEv : EventDetails :=
  ⟨.Finalization, "Balances", "Minted", .balancesMinted ⟨accBytes, 88602977965⟩⟩

/-- A finalization-phase `Assets::Issued` event for asset 1984. -/
def issuedEv : EventDetails :=
  ⟨.Finalization, "Assets", "Issued", .assetsIssued ⟨1984, accBytes, 5000000⟩⟩

/-- A finalization-phase `MessageQueue::Processed` success event from the relay. -/
def procEvParent : EventDetails :=
  ⟨.Finalization, "MessageQueue", "Processed", .messageQueueProcessed ⟨.Parent, true⟩⟩

/-- A finalization-phase `MessageQueue::Processed` success event from sibling 2034. -/
def procEvSibling : EventDetails :=
  ⟨.Finalization, "MessageQueue", "Processed", .messageQueueProcessed ⟨.Sibling 2034, true⟩⟩

/-- A finalization-phase `MessageQueue::Processed` event reporting failure. -/
def procEvFailed : EventDetails :=
  ⟨.Finalization, "MessageQueue", "Processed", .messageQueueProcessed ⟨.Parent, false⟩⟩

/-- An unsigned `limited_teleport_assets` extrinsic teleporting DOT to the relay. -/
def teleportDotExtrinsic : ExtrinsicDetails where
  call := .limitedTeleportAssets
    (.V3 ⟨1, .Here⟩)
    (.V3 ⟨0, .X1 (.AccountId32 none accBytes)⟩)
    (.V3 [⟨.Concrete ⟨1, .Here⟩, .Fungible 5000317346979⟩])
  address_bytes := none

/-- An unsigned `limited_teleport_assets` extrinsic whose destination location
(`parents = 0, Here`) is outside the §4.2 classification table. -/
def unsupportedDestExtrinsic : ExtrinsicDetails where
  call := .limitedTeleportAssets
    (.V3 ⟨0, .Here⟩)
    (.V3 ⟨0, .X1 (.AccountId32 none accBytes)⟩)
    (.V3 [⟨.Concrete ⟨1, .Here⟩, .Fungible 5000317346979⟩])
  address_bytes := none

/-- An unsigned `limited_reserve_transfer_assets` extrinsic whose asset list holds
one asset of unsupported shape (`parents = 3, Here`) followed by DOT. -/
def mixedAssetsReserveExtrinsic : ExtrinsicDetails where
  call := .limitedReserveTransferAssets
    (.V3 ⟨1, .X1 (.Parachain 2034)⟩)
    (.V3 ⟨0, .X1 (.AccountId32 none accBytes)⟩)
    (.V3 [⟨.Concrete ⟨3, .Here⟩, .Fungible 42⟩,
          ⟨.Concrete ⟨1, .Here⟩, .Fungible 371000000000⟩])
  address_bytes := none

/-- An extrinsic that decodes as none of the three transfer call shapes. -/
def undecodableExtrinsic : ExtrinsicDetails where
  call := .undecodable
  address_bytes := none

/-- An API whose block and events fetch succeed, with a supported incoming
correlation pair in the events but a storage handle whose fetches all fail. -/
def failingStorageApi : ApiAtBlockHash where
  block := .ok
    { number := 100
      events := .ok [.ok issuedEv, .ok procEvSibling]
      extrinsics := .ok []
      storage := failingStorage }

/-- An API with one incoming DOT teleport (minted + processed-from-parent events)
and one outgoing DOT teleport extrinsic. -/
def sampleApi : ApiAtBlockHash where
  block := .ok
    { number := 77
      events := .ok [.ok mintedEv, .ok procEvParent]
      extrinsics := .ok [teleportDotExtrinsic]
      storage := sampleStorage }

/-- The incoming record `sampleApi`'s events produce. -/
def incomingSampleRecord : XcmIncomingTransfer :=
  ⟨77, .Parent, testFns.toAhAddress accBytes, "DOT",
    to_decimal_f64 88602977965 DOT_DECIMALS, .Teleport⟩

/-- The outgoing record `sampleApi`'s extrinsic produces. -/
def outgoingSampleRecord : XcmOutgoingTransfer :=
  ⟨77, .Polkadot, "Unsigned message", testFns.toGenericAddress accBytes, "DOT",
    to_decimal_f64 5000317346979 DOT_DECIMALS, .Teleport⟩

/-! ## Helper lemmas (shared) -/

theorem as_minted_event_data (event : EventDetails) (m : MintedEvent)
    (h : as_minted_event event = some m) : event.data = .balancesMinted m := by
  unfold as_minted_event at h
  split at h
  · split at h
    · injection h with h; rw [← h]; assumption
    · exact absurd h (by simp)
  · exact absurd h (by simp)

theorem as_assets_issued_event_data (event : EventDetails) (i : AssetsIssuedEvent)
    (h : as_assets_issued_event event = some i) : event.data = .assetsIssued i := by
  unfold as_assets_issued_event at h
  split at h
  · split at h
    · injection h with h; rw [← h]; assumption
    · exact absurd h (by simp)
  · exact absurd h (by simp)

theorem as_foreign_assets_issued_event_data (event : EventDetails)
    (f : ForeignAssetsIssuedEvent) (h : as_foreign_assets_issued_event event = some f) :
    event.data = .foreignAssetsIssued f := by
  unfold as_foreign_assets_issued_event at h
  split at h
  · split at h
    · injection h with h; rw [← h]; assumption
    · exact absurd h (by simp)
  · exact absurd h (by simp)

theorem decoders_of_minted (event : EventDetails) (m : MintedEvent)
    (h : as_minted_event event = some m) :
    as_assets_issued_event event = none ∧ as_foreign_assets_issued_event event = none := by
  have hd := as_minted_event_data event m h
  constructor
  · unfold as_assets_issued_event
    rw [hd]
    simp
  · unfold as_foreign_assets_issued_event
    rw [hd]
    simp

theorem decoders_of_assets_issued (event : EventDetails) (i : AssetsIssuedEvent)
    (h : as_assets_issued_event event = some i) :
    as_minted_event event = none ∧ as_foreign_assets_issued_event event = none := by
  have hd := as_assets_issued_event_data event i h
  constructor
  · unfold as_minted_event
    rw [hd]
    simp
  · unfold as_foreign_assets_issued_event
    rw [hd]
    simp

theorem decoders_of_foreign_issued (event : EventDetails) (f : ForeignAssetsIssuedEvent)
    (h : as_foreign_assets_issued_event event = some f) :
    as_minted_event event = none ∧ as_assets_issued_event event = none := by
  have hd := as_foreign_assets_issued_event_data event f h
  constructor
  · unfold as_minted_event
    rw [hd]
    simp
  · unfold as_assets_issued_event
    rw [hd]
    simp

theorem is_processed_arm_fields (event : EventDetails) (h : is_processed_arm event = true) :
    event.phase = .Finalization ∧ event.pallet_name = "MessageQueue" ∧
      event.variant_name = "Processed" := by
  unfold is_processed_arm at h
  simp only [Bool.and_eq_true, beq_iff_eq] at h
  exact ⟨h.1.1, h.1.2, h.2⟩

theorem processed_arm_not_issuance (event : EventDetails) (h : is_processed_arm event = true) :
    is_issuance_arm event = false := by
  have hf := is_processed_arm_fields event h
  unfold is_issuance_arm
  rw [hf.2.1, hf.2.2]
  simp

theorem foldl_push_map {α β : Type} (f : α → β) (l : List α) (acc : List β) :
    l.foldl (fun acc x => acc ++ [f x]) acc = acc ++ l.map f := by
  induction l generalizing acc with
  | nil => simp
  | cons x xs ih => simp [List.foldl, ih]

theorem get_sender_isSome (c : ExternalFns) (extrinsic : ExtrinsicDetails)
    (h : well_formed_signer extrinsic = true) : (get_sender c extrinsic).isSome = true := by
  unfold well_formed_signer at h
  unfold get_sender
  split at h
  · simp only [beq_iff_eq] at h
    simp [h]
  · simp

theorem decode_common_ne_none (c : ExternalFns) (extrinsic : ExtrinsicDetails)
    (dest beneficiary : VersionedLocation) (h : well_formed_signer extrinsic = true) :
    decode_extrinsic_common c extrinsic dest beneficiary ≠ none := by
  have hs := get_sender_isSome c extrinsic h
  unfold decode_extrinsic_common
  split
  · simp
  · split
    · simp
    · split
      · rename_i heq
        rw [heq] at hs
        simp at hs
      · simp

theorem generate_teleport_ne_none (c : ExternalFns) (s : StorageModel) (bn : Nat)
    (extrinsic : ExtrinsicDetails) (h : well_formed_signer extrinsic = true) :
    generate_xcm_sent_teleport_payload c s bn extrinsic ≠ none := by
  unfold generate_xcm_sent_teleport_payload
  split
  · simp
  · rename_i dest beneficiary assets heq
    split
    · rename_i hcommon
      exact absurd hcommon (decode_common_ne_none c extrinsic dest beneficiary h)
    · simp
    · split <;> simp

theorem generate_reserve_ne_none (c : ExternalFns) (s : StorageModel) (bn : Nat)
    (extrinsic : ExtrinsicDetails) (h : well_formed_signer extrinsic = true) :
    generate_xcm_sent_reserve_transfer_payload c s bn extrinsic ≠ none := by
  unfold generate_xcm_sent_reserve_transfer_payload
  split
  · simp
  · rename_i dest beneficiary assets heq
    split
    · rename_i hcommon
      exact absurd hcommon (decode_common_ne_none c extrinsic dest beneficiary h)
    · simp
    · split <;> simp

theorem generate_transfer_assets_ne_none (c : ExternalFns) (s : StorageModel) (bn : Nat)
    (extrinsic : ExtrinsicDetails) (h : well_formed_signer extrinsic = true) :
    generate_xcm_sent_transfer_assets_payload c s bn extrinsic ≠ none := by
  unfold generate_xcm_sent_transfer_assets_payload
  split
  · simp
  · rename_i dest beneficiary assets heq
    split
    · rename_i hcommon
      exact absurd hcommon (decode_common_ne_none c extrinsic dest beneficiary h)
    · simp
    · split <;> simp

theorem process_outgoing_extrinsic_ne_none (c : ExternalFns) (s : StorageModel) (bn : Nat)
    (extrinsic : ExtrinsicDetails) (h : well_formed_signer extrinsic = true) :
    process_outgoing_extrinsic c s bn extrinsic ≠ none := by
  unfold process_outgoing_extrinsic
  split
  · rename_i heq
    exact absurd heq (generate_teleport_ne_none c s bn extrinsic h)
  · simp
  · split
    · rename_i heq
      exact absurd heq (generate_reserve_ne_none c s bn extrinsic h)
    · simp
    · split
      · rename_i heq
        exact absurd heq (generate_transfer_assets_ne_none c s bn extrinsic h)
      · simp
      · simp

theorem process_outgoing_extrinsics_ne_none (c : ExternalFns) (s : StorageModel) (bn : Nat)
    (extrinsics : List ExtrinsicDetails)
    (h : ∀ e ∈ extrinsics, well_formed_signer e = true) :
    process_outgoing_extrinsics c s bn extrinsics ≠ none := by
  induction extrinsics with
  | nil => simp [process_outgoing_extrinsics]
  | cons e rest ih =>
    unfold process_outgoing_extrinsics
    split
    · rename_i heq
      exact absurd heq (process_outgoing_extrinsic_ne_none c s bn e (h e (by simp)))
    · split
      · rename_i heq
        exact absurd heq (ih (fun x hx => h x (by simp [hx])))
      · simp

/-! ## Claim theorems -/

/-- C6: for every v4 location `L` and parachain id `P`, `is_teleportable_to_sibling L P`
holds iff `L.parents = 1` and the first junction of `L`'s interior is `Parachain P`;
in particular the location `{parents: 1, interior: [Parachain 2004,
PalletInstance 50, GeneralIndex 3014]}` is teleportable to sibling 2004 and not to
sibling 3370. -/
theorem teleportability_rule :
    (∀ (location : Location) (para_id : Nat),
      is_teleportable_to_sibling location para_id = true ↔
        location.parents = 1 ∧
          first_interior_junction location.interior = some (.Parachain para_id))
    ∧ is_teleportable_to_sibling
        ⟨1, .X3 (.Parachain 2004) (.PalletInstance 50) (.GeneralIndex 3014)⟩ 2004 = true
    ∧ is_teleportable_to_sibling
        ⟨1, .X3 (.Parachain 2004) (.PalletInstance 50) (.GeneralIndex 3014)⟩ 3370 = false := by
  refine ⟨?_, by decide, by decide⟩
  intro location para_id
  rcases location with ⟨p, i⟩
  rcases p with _ | p
  · cases i <;>
      exact ⟨fun hco => Bool.noConfusion hco,
        fun hand => absurd (show (0 : Nat) = 1 from hand.1) (by omega)⟩
  · rcases p with _ | p
    · cases i with
      | Here =>
        exact ⟨fun hco => Bool.noConfusion hco, fun hand => by
          simp [first_interior_junction] at hand⟩
      | X1 j1 =>
        cases j1 <;>
          simp [show ∀ j, is_teleportable_to_sibling ⟨1, .X1 j⟩ para_id =
              junction_starts_with_para_id para_id j from fun _ => rfl,
            junction_starts_with_para_id, first_interior_junction]
      | X2 j1 j2 =>
        cases j1 <;>
          simp [show ∀ j, is_teleportable_to_sibling ⟨1, .X2 j j2⟩ para_id =
              junction_starts_with_para_id para_id j from fun _ => rfl,
            junction_starts_with_para_id, first_interior_junction]
      | X3 j1 j2 j3 =>
        cases j1 <;>
          simp [show ∀ j, is_teleportable_to_sibling ⟨1, .X3 j j2 j3⟩ para_id =
              junction_starts_with_para_id para_id j from fun _ => rfl,
            junction_starts_with_para_id, first_interior_junction]
      | X4 j1 j2 j3 j4 =>
        cases j1 <;>
          simp [show ∀ j, is_teleportable_to_sibling ⟨1, .X4 j j2 j3 j4⟩ para_id =
              junction_starts_with_para_id para_id j from fun _ => rfl,
            junction_starts_with_para_id, first_interior_junction]
      | X5 j1 j2 j3 j4 j5 =>
        cases j1 <;>
          simp [show ∀ j, is_teleportable_to_sibling ⟨1, .X5 j j2 j3 j4 j5⟩ para_id =
              junction_starts_with_para_id para_id j from fun _ => rfl,
            junction_starts_with_para_id, first_interior_junction]
      | X6 j1 j2 j3 j4 j5 j6 =>
        cases j1 <;>
          simp [show ∀ j, is_teleportable_to_sibling ⟨1, .X6 j j2 j3 j4 j5 j6⟩ para_id =
              junction_starts_with_para_id para_id j from fun _ => rfl,
            junction_starts_with_para_id, first_interior_junction]
      | X7 j1 j2 j3 j4 j5 j6 j7 =>
        cases j1 <;>
          simp [show ∀ j, is_teleportable_to_sibling ⟨1, .X7 j j2 j3 j4 j5 j6 j7⟩ para_id =
              junction_starts_with_para_id para_id j from fun _ => rfl,
            junction_starts_with_para_id, first_interior_junction]
      | X8 j1 j2 j3 j4 j5 j6 j7 j8 =>
        cases j1 <;>
          simp [show ∀ j, is_teleportable_to_sibling ⟨1, .X8 j j2 j3 j4 j5 j6 j7 j8⟩ para_id =
              junction_starts_with_para_id para_id j from fun _ => rfl,
            junction_starts_with_para_id, first_interior_junction]
    · cases i <;>
        exact ⟨fun hco => Bool.noConfusion hco,
          fun hand => absurd (show p + 1 + 1 = 1 from hand.1) (by omega)⟩

/-- C10: sender extraction is total exactly on well-formed signer bytes: 33 bytes
(discriminant plus 32-byte account id) yield the own-chain address of the last 32
bytes, an absent signer yields the literal `"Unsigned message"`, and any other byte
length panics (modelled as `none`) instead of returning an error. -/
theorem sender_extraction_safety (c : ExternalFns) :
    (∀ (extrinsic : ExtrinsicDetails) (bytes : List UInt8),
      extrinsic.address_bytes = some bytes → bytes.length = 33 →
      get_sender c extrinsic = some (c.toAhAddress (bytes.drop 1)))
    ∧ (∀ extrinsic : ExtrinsicDetails, extrinsic.address_bytes = none →
      get_sender c extrinsic = some "Unsigned message")
    ∧ (∀ (extrinsic : ExtrinsicDetails) (bytes : List UInt8),
      extrinsic.address_bytes = some bytes → bytes.length ≠ 33 →
      get_sender c extrinsic = none) := by
  refine ⟨?_, ?_, ?_⟩
  · intro e bytes hb hl
    simp [get_sender, hb, hl]
  · intro e hb
    simp [get_sender, hb]
  · intro e bytes hb hl
    simp [get_sender, hb, hl]

/-- Witness for C10: a 33-byte signer succeeds, an absent signer yields the
sentinel, a 2-byte signer panics. -/
theorem sender_extraction_safety_witness :
    get_sender testFns ⟨.undecodable, some (List.replicate 33 (1 : UInt8))⟩ =
      some (testFns.toAhAddress ((List.replicate 33 (1 : UInt8)).drop 1))
    ∧ get_sender testFns undecodableExtrinsic = some "Unsigned message"
    ∧ get_sender testFns ⟨.undecodable, some [0, 1]⟩ = none := by
  refine ⟨?_, ?_, ?_⟩
  · exact (sender_extraction_safety testFns).1 _ _ rfl (by decide)
  · exact (sender_extraction_safety testFns).2.1 undecodableExtrinsic rfl
  · exact (sender_extraction_safety testFns).2.2 _ [0, 1] rfl (by decide)

/-- C9: whenever both per-direction queries succeed, the combined output is exactly
the incoming records (wrapped, in their order) followed by the outgoing records
(wrapped, in their order) — nothing dropped, duplicated or interleaved. -/
theorem combiner_append_semantics (c : ExternalFns) (api : ApiAtBlockHash)
    (incoming : List XcmIncomingTransfer) (outgoing : List XcmOutgoingTransfer)
    (hin : get_incoming_xcm_transfers_at_block_hash c api = .ok incoming)
    (hout : get_outgoing_xcm_transfers_at_block_hash c api = some (.ok outgoing)) :
    get_all_transfers_at_block_hash c api =
      some (.ok (incoming.map XcmTransfer.ReceivedTransfer ++
        outgoing.map XcmTransfer.SentTransfer)) := by
  simp [get_all_transfers_at_block_hash, hin, hout, foldl_push_map]

/-- Witness for C9 on a concrete block holding one incoming teleport and one
outgoing teleport. -/
theorem combiner_append_semantics_witness :
    get_all_transfers_at_block_hash testFns sampleApi =
      some (.ok [XcmTransfer.ReceivedTransfer incomingSampleRecord,
        XcmTransfer.SentTransfer outgoingSampleRecord]) := by
  have h := combiner_append_semantics testFns sampleApi
    [incomingSampleRecord] [outgoingSampleRecord] rfl rfl
  simpa using h

/-- C3 counterexample: an extrinsic whose destination `{parents: 0, Here}` is
outside the classification table is NOT dropped — it still yields one record, with
destination `Unsupported`. -/
theorem unsupported_destination_counterexample :
    process_outgoing_extrinsic testFns emptyStorage 9 unsupportedDestExtrinsic =
      some [⟨9, .Unsupported, "Unsigned message", testFns.toGenericAddress accBytes,
        "DOT", to_decimal_f64 5000317346979 DOT_DECIMALS, .Teleport⟩]
    ∧ process_outgoing_extrinsic testFns emptyStorage 9 unsupportedDestExtrinsic ≠
      some [] := by
  exact ⟨rfl, by decide⟩

/-- C3 amended: the destination classification agrees with the spec's table on
every v3 location (including `Unsupported` for every other shape), and a v3
destination never fails: processing continues, carrying `Unsupported` into the
emitted records; only a destination not encoded in XCM v3 drops the extrinsic. -/
theorem destination_classification (c : ExternalFns) :
    (∀ location, destination_chain_from_multilocation location =
      spec_destination_classification location)
    ∧ (∀ location, get_destination_chain (.V3 location) =
      .ok (destination_chain_from_multilocation location))
    ∧ (∀ (raw : ExtrinsicDetails) (location : MultiLocation) (ben : VersionedLocation),
      decode_extrinsic_common c raw (.V3 location) ben =
        match get_beneficiary c ben with
        | .error e => some (.error e)
        | .ok beneficiary_str =>
          match get_sender c raw with
          | none => none
          | some sender =>
            some (.ok (destination_chain_from_multilocation location, sender,
              beneficiary_str))) := by
  refine ⟨?_, fun location => rfl, fun raw location ben => rfl⟩
  intro location
  rcases location with ⟨p, i⟩
  rcases p with _ | p
  · cases i <;> rfl
  · rcases p with _ | p
    · cases i with
      | Here => rfl
      | X1 j1 => cases j1 <;> rfl
      | X2 j1 j2 => rfl
      | X3 j1 j2 j3 => rfl
      | X4 j1 j2 j3 j4 => rfl
      | X5 j1 j2 j3 j4 j5 => rfl
      | X6 j1 j2 j3 j4 j5 j6 => rfl
      | X7 j1 j2 j3 j4 j5 j6 j7 => rfl
      | X8 j1 j2 j3 j4 j5 j6 j7 j8 => rfl
    · rcases p with _ | p
      · cases i with
        | Here => rfl
        | X1 j1 =>
          cases j1 <;> first | rfl | (rename_i n; cases n <;> rfl)
        | X2 j1 j2 =>
          cases j1 <;>
            first
            | rfl
            | (rename_i n; cases n <;> first | rfl | (cases j2 <;> rfl))
        | X3 j1 j2 j3 => rfl
        | X4 j1 j2 j3 j4 => rfl
        | X5 j1 j2 j3 j4 j5 => rfl
        | X6 j1 j2 j3 j4 j5 j6 => rfl
        | X7 j1 j2 j3 j4 j5 j6 j7 => rfl
        | X8 j1 j2 j3 j4 j5 j6 j7 j8 => rfl
      · rfl

/-- C4: per extrinsic, the three decode attempts run in the fixed order teleport,
reserve-transfer, generic-transfer; for whichever shape the extrinsic actually is,
the output is determined by that shape's generator alone (the other shapes cannot
decode it); an extrinsic decoding as none of the three contributes zero records and
leaves the rest of the block's processing untouched. -/
theorem outgoing_decode_order (c : ExternalFns) (s : StorageModel) (bn : Nat)
    (extrinsic : ExtrinsicDetails) :
    ((as_limited_teleport_assets extrinsic).isSome = true →
      process_outgoing_extrinsic c s bn extrinsic =
        first_ok_payload (generate_xcm_sent_teleport_payload c s bn extrinsic))
    ∧ ((as_limited_reserve_transfer_assets extrinsic).isSome = true →
      process_outgoing_extrinsic c s bn extrinsic =
        first_ok_payload (generate_xcm_sent_reserve_transfer_payload c s bn extrinsic))
    ∧ ((as_transfer_assets extrinsic).isSome = true →
      process_outgoing_extrinsic c s bn extrinsic =
        first_ok_payload (generate_xcm_sent_transfer_assets_payload c s bn extrinsic))
    ∧ (extrinsic.call = .undecodable →
      process_outgoing_extrinsic c s bn extrinsic = some [] ∧
      ∀ rest, process_outgoing_extrinsics c s bn (extrinsic :: rest) =
        process_outgoing_extrinsics c s bn rest) := by
  refine ⟨?_, ?_, ?_, ?_⟩
  · intro h
    obtain ⟨dest, ben, assets, hcall⟩ :
        ∃ d b a, extrinsic.call = .limitedTeleportAssets d b a := by
      unfold as_limited_teleport_assets at h
      split at h
      · rename_i d b a heq
        exact ⟨d, b, a, heq⟩
      · simp at h
    have hres : generate_xcm_sent_reserve_transfer_payload c s bn extrinsic =
        some (.error .GeneratePayloadFailed) := by
      simp [generate_xcm_sent_reserve_transfer_payload,
        as_limited_reserve_transfer_assets, hcall]
    have htr : generate_xcm_sent_transfer_assets_payload c s bn extrinsic =
        some (.error .GeneratePayloadFailed) := by
      simp [generate_xcm_sent_transfer_assets_payload, as_transfer_assets, hcall]
    cases hgen : generate_xcm_sent_teleport_payload c s bn extrinsic with
    | none => simp [process_outgoing_extrinsic, hgen, first_ok_payload]
    | some r =>
      cases r with
      | ok payload => simp [process_outgoing_extrinsic, hgen, first_ok_payload]
      | error e =>
        simp [process_outgoing_extrinsic, hgen, hres, htr, first_ok_payload]
  · intro h
    obtain ⟨dest, ben, assets, hcall⟩ :
        ∃ d b a, extrinsic.call = .limitedReserveTransferAssets d b a := by
      unfold as_limited_reserve_transfer_assets at h
      split at h
      · rename_i d b a heq
        exact ⟨d, b, a, heq⟩
      · simp at h
    have htel : generate_xcm_sent_teleport_payload c s bn extrinsic =
        some (.error .GeneratePayloadFailed) := by
      simp [generate_xcm_sent_teleport_payload, as_limited_teleport_assets, hcall]
    have htr : generate_xcm_sent_transfer_assets_payload c s bn extrinsic =
        some (.error .GeneratePayloadFailed) := by
      simp [generate_xcm_sent_transfer_assets_payload, as_transfer_assets, hcall]
    cases hgen : generate_xcm_sent_reserve_transfer_payload c s bn extrinsic with
    | none => simp [process_outgoing_extrinsic, htel, hgen, first_ok_payload]
    | some r =>
      cases r with
      | ok payload => simp [process_outgoing_extrinsic, htel, hgen, first_ok_payload]
      | error e =>
        simp [process_outgoing_extrinsic, htel, hgen, htr, first_ok_payload]
  · intro h
    obtain ⟨dest, ben, assets, hcall⟩ :
        ∃ d b a, extrinsic.call = .transferAssets d b a := by
      unfold as_transfer_assets at h
      split at h
      · rename_i d b a heq
        exact ⟨d, b, a, heq⟩
      · simp at h
    have htel : generate_xcm_sent_teleport_payload c s bn extrinsic =
        some (.error .GeneratePayloadFailed) := by
      simp [generate_xcm_sent_teleport_payload, as_limited_teleport_assets, hcall]
    have hres : generate_xcm_sent_reserve_transfer_payload c s bn extrinsic =
        some (.error .GeneratePayloadFailed) := by
      simp [generate_xcm_sent_reserve_transfer_payload,
        as_limited_reserve_transfer_assets, hcall]
    cases hgen : generate_xcm_sent_transfer_assets_payload c s bn extrinsic with
    | none => simp [process_outgoing_extrinsic, htel, hres, hgen, first_ok_payload]
    | some r =>
      cases r with
      | ok payload =>
        simp [process_outgoing_extrinsic, htel, hres, hgen, first_ok_payload]
      | error e =>
        simp [process_outgoing_extrinsic, htel, hres, hgen, first_ok_payload]
  · intro hcall
    have hp : process_outgoing_extrinsic c s bn extrinsic = some [] := by
      simp [process_outgoing_extrinsic, generate_xcm_sent_teleport_payload,
        generate_xcm_sent_reserve_transfer_payload,
        generate_xcm_sent_transfer_assets_payload, as_limited_teleport_assets,
        as_limited_reserve_transfer_assets, as_transfer_assets, hcall]
    refine ⟨hp, ?_⟩
    intro rest
    have hstep : process_outgoing_extrinsics c s bn (extrinsic :: rest) =
        match process_outgoing_extrinsic c s bn extrinsic with
        | none => none
        | some payload =>
          match process_outgoing_extrinsics c s bn rest with
          | none => none
          | some output => some (payload ++ output) := rfl
    rw [hstep, hp]
    cases hrest : process_outgoing_extrinsics c s bn rest <;> simp [hrest]

/-- Witness for C4: the teleport-call extrinsic is settled by the teleport
generator alone, and an undecodable extrinsic contributes zero records. -/
theorem outgoing_decode_order_witness :
    process_outgoing_extrinsic testFns emptyStorage 3 teleportDotExtrinsic =
      first_ok_payload (generate_xcm_sent_teleport_payload testFns emptyStorage 3
        teleportDotExtrinsic)
    ∧ process_outgoing_extrinsic testFns emptyStorage 3 undecodableExtrinsic =
      some [] := by
  refine ⟨(outgoing_decode_order testFns emptyStorage 3 teleportDotExtrinsic).1
    (by decide), ?_⟩
  exact ((outgoing_decode_order testFns emptyStorage 3 undecodableExtrinsic).2.2.2
    rfl).1

/-- C2 counterexample: a decoded reserve-transfer call whose asset list holds an
unsupported-shape asset followed by DOT contributes ONE record (for DOT), not zero
— the unsupported asset is skipped, the extrinsic is not dropped. -/
theorem outgoing_unresolved_asset_counterexample :
    process_outgoing_extrinsic testFns emptyStorage 11 mixedAssetsReserveExtrinsic =
      some [⟨11, .PolkadotParachain 2034, "Unsigned message",
        testFns.toGenericAddress accBytes, "DOT",
        to_decimal_f64 371000000000 DOT_DECIMALS, .Reserve⟩]
    ∧ process_outgoing_extrinsic testFns emptyStorage 11 mixedAssetsReserveExtrinsic ≠
      some [] := by
  exact ⟨rfl, by decide⟩

/-- C2 amended: in the outgoing extractor an asset whose location shape is outside
the supported set is skipped individually — it contributes nothing and the other
assets of the same call still produce their records (the asset loops are otherwise
unchanged by its presence). -/
theorem outgoing_unresolved_asset_scope (c : ExternalFns) (s : StorageModel) (bn : Nat)
    (dc : DestinationChain) (sender beneficiary : String) :
    (∀ asset, supported_outgoing_asset_shape asset = false →
      reserve_asset_details c s asset = .ok none ∧
      transfer_assets_asset_details c s dc asset = .ok none)
    ∧ (∀ asset rest, reserve_asset_details c s asset = .ok none →
      reserve_assets_loop c s bn dc sender beneficiary (asset :: rest) =
        reserve_assets_loop c s bn dc sender beneficiary rest)
    ∧ (∀ asset rest, transfer_assets_asset_details c s dc asset = .ok none →
      transfer_assets_loop c s bn dc sender beneficiary (asset :: rest) =
        transfer_assets_loop c s bn dc sender beneficiary rest)
    ∧ (∀ asset rest, teleport_asset_details c s asset = .ok none →
      teleport_assets_loop c s bn dc sender beneficiary (asset :: rest) =
        teleport_assets_loop c s bn dc sender beneficiary rest) := by
  refine ⟨?_, ?_, ?_, ?_⟩
  · intro asset h
    constructor
    · unfold reserve_asset_details
      split
      · rename_i heq1 heq2
        simp [supported_outgoing_asset_shape, heq1, heq2] at h
      · rename_i amount heq1 heq2
        simp [supported_outgoing_asset_shape, heq1, heq2] at h
      · rename_i amount heq1 heq2
        simp [supported_outgoing_asset_shape, heq1, heq2] at h
      · rfl
    · unfold transfer_assets_asset_details
      split
      · rename_i heq1 heq2
        simp [supported_outgoing_asset_shape, heq1, heq2] at h
      · rename_i amount heq1 heq2
        simp [supported_outgoing_asset_shape, heq1, heq2] at h
      · rename_i amount heq1 heq2
        simp [supported_outgoing_asset_shape, heq1, heq2] at h
      · rfl
  · intro asset rest h
    simp [reserve_assets_loop, h]
  · intro asset rest h
    simp [transfer_assets_loop, h]
  · intro asset rest h
    simp [teleport_assets_loop, h]

/-- Witness for C2's amended theorem: the `{parents: 3, Here}` asset is unsupported
and skipping it leaves the DOT record of the same list intact. -/
theorem outgoing_unresolved_asset_scope_witness :
    reserve_asset_details testFns emptyStorage ⟨.Concrete ⟨3, .Here⟩, .Fungible 42⟩ =
      .ok none
    ∧ reserve_assets_loop testFns emptyStorage 11 (.PolkadotParachain 2034) "s" "b"
        [⟨.Concrete ⟨3, .Here⟩, .Fungible 42⟩,
          ⟨.Concrete ⟨1, .Here⟩, .Fungible 371000000000⟩] =
      reserve_assets_loop testFns emptyStorage 11 (.PolkadotParachain 2034) "s" "b"
        [⟨.Concrete ⟨1, .Here⟩, .Fungible 371000000000⟩] := by
  have h := outgoing_unresolved_asset_scope testFns emptyStorage 11
    (.PolkadotParachain 2034) "s" "b"
  have hdet := (h.1 ⟨.Concrete ⟨3, .Here⟩, .Fungible 42⟩ (by decide)).1
  exact ⟨hdet, h.2.1 _ _ hdet⟩

/-- C5 counterexample: a connectivity failure during metadata resolution does NOT
fail the block query — the failing record's generation errors with `Subxt`, the
record is dropped, and the incoming query still returns `ok` (here, empty). -/
theorem connectivity_error_swallowed_counterexample :
    generate_xcm_received_payload testFns failingStorage 100 (some issuedEv)
      procEvSibling = .error .Subxt
    ∧ get_incoming_xcm_transfers_at_block_hash testFns failingStorageApi = .ok [] := by
  exact ⟨rfl, rfl⟩

/-- C5 amended: a storage-fetch failure during record construction is local: the
incoming scan drops the affected record and the query still succeeds whenever the
block and events fetches succeed; the outgoing query succeeds (for well-formed
signers) whatever the storage does; only the block / events / extrinsics fetches
propagate an error to the caller. -/
theorem connectivity_error_scope (c : ExternalFns) (api : ApiAtBlockHash) :
    (∀ block events, api.block = .ok block → block.events = .ok events →
      (get_incoming_xcm_transfers_at_block_hash c api).isOk = true)
    ∧ (∀ s bn last event rest e,
      is_processed_arm event = true →
      generate_xcm_received_payload c s bn last event = .error e →
      scan_incoming_events c s bn (.ok event :: rest) last =
        scan_incoming_events c s bn rest none)
    ∧ (∀ block extrinsics, api.block = .ok block → block.extrinsics = .ok extrinsics →
      (∀ extrinsic ∈ extrinsics, well_formed_signer extrinsic = true) →
      ∃ output, get_outgoing_xcm_transfers_at_block_hash c api = some (.ok output)) := by
  refine ⟨?_, ?_, ?_⟩
  · intro block events hb hev
    simp [get_incoming_xcm_transfers_at_block_hash, hb, hev, Except.isOk, Except.toBool]
  · intro s bn last event rest e harm hgen
    simp [scan_incoming_events, processed_arm_not_issuance event harm, harm, hgen]
  · intro block extrinsics hb hext hwf
    cases hpo : process_outgoing_extrinsics c block.storage block.number extrinsics with
    | none =>
      exact absurd hpo
        (process_outgoing_extrinsics_ne_none c block.storage block.number extrinsics hwf)
    | some output =>
      exact ⟨output, by
        simp [get_outgoing_xcm_transfers_at_block_hash, hb, hext, hpo]⟩

/-- Witness for C5's amended theorem on the failing-storage API. -/
theorem connectivity_error_scope_witness :
    (get_incoming_xcm_transfers_at_block_hash testFns failingStorageApi).isOk = true
    ∧ ∃ output, get_outgoing_xcm_transfers_at_block_hash testFns failingStorageApi =
      some (.ok output) := by
  have h := connectivity_error_scope testFns failingStorageApi
  refine ⟨h.1 _ _ rfl rfl, h.2.2 _ _ rfl rfl ?_⟩
  intro e he
  exact absurd he (List.not_mem_nil e)

/-- C7: handling a finalization-phase `MessageQueue::Processed` event always
continues the scan with the pending-issuance state cleared (one record pushed on
success, none on failure); a decoded `Processed` event with `success = false`
yields the local `UnsuccessfulXcmMessage` error (so no record); and the block query
still succeeds whenever the block and events fetches do. -/
theorem processed_event_state_machine (c : ExternalFns) (s : StorageModel) (bn : Nat) :
    (∀ event rest last, is_processed_arm event = true →
      scan_incoming_events c s bn (.ok event :: rest) last =
        (match generate_xcm_received_payload c s bn last event with
         | .ok payload => payload :: scan_incoming_events c s bn rest none
         | .error _ => scan_incoming_events c s bn rest none))
    ∧ (∀ event last origin, as_processed_event event = some ⟨origin, false⟩ →
      generate_xcm_received_payload c s bn last event = .error .UnsuccessfulXcmMessage)
    ∧ (∀ (api : ApiAtBlockHash) block events,
      api.block = .ok block → block.events = .ok events →
      ∃ records, get_incoming_xcm_transfers_at_block_hash c api = .ok records) := by
  refine ⟨?_, ?_, ?_⟩
  · intro event rest last harm
    simp [scan_incoming_events, processed_arm_not_issuance event harm, harm]
  · intro event last origin hdec
    simp [generate_xcm_received_payload, hdec]
  · intro api block events hb hev
    exact ⟨scan_incoming_events c block.storage block.number events none,
      by simp [get_incoming_xcm_transfers_at_block_hash, hb, hev]⟩

/-- Witness for C7: a failed `Processed` event after a pending mint emits nothing
and errors locally with `UnsuccessfulXcmMessage`. -/
theorem processed_event_state_machine_witness :
    scan_incoming_events testFns emptyStorage 1 [.ok procEvFailed] (some mintedEv) = []
    ∧ generate_xcm_received_payload testFns emptyStorage 1 (some mintedEv) procEvFailed =
      .error .UnsuccessfulXcmMessage := by
  have h := processed_event_state_machine testFns emptyStorage 1
  have h2 := h.2.1 procEvFailed (some mintedEv) .Parent (by decide)
  refine ⟨?_, h2⟩
  rw [h.1 procEvFailed [] (some mintedEv) (by decide), h2]
  exact rfl

/-- C1: the incoming correlation table — `(Parent, minted)` gives DOT/Teleport;
`(Sibling, minted)` gives DOT/Reserve; `(Sibling, Assets::Issued)` gives the
resolved local metadata with Reserve; `(Sibling, ForeignAssets::Issued)` gives the
resolved foreign metadata, Teleport iff the asset location is concrete for that
sibling, else Reserve; every other `(origin, pending-issuance)` combination
produces no record; and the scan pushes exactly one record per successful payload
and swallows payload errors. -/
theorem incoming_correlation_table (c : ExternalFns) (s : StorageModel) (bn : Nat)
    (pev : EventDetails) :
    (∀ iss m, as_processed_event pev = some ⟨.Parent, true⟩ →
      as_minted_event iss = some m →
      generate_xcm_received_payload c s bn (some iss) pev =
        .ok ⟨bn, .Parent, c.toAhAddress m.who, "DOT",
          to_decimal_f64 m.amount DOT_DECIMALS, .Teleport⟩)
    ∧ (∀ iss m sid, as_processed_event pev = some ⟨.Sibling sid, true⟩ →
      as_minted_event iss = some m →
      generate_xcm_received_payload c s bn (some iss) pev =
        .ok ⟨bn, .Sibling sid, c.toAhAddress m.who, "DOT",
          to_decimal_f64 m.amount DOT_DECIMALS, .Reserve⟩)
    ∧ (∀ iss i sid md, as_processed_event pev = some ⟨.Sibling sid, true⟩ →
      as_assets_issued_event iss = some i →
      extract_asset_metadata_values s i.asset_id = .ok md →
      generate_xcm_received_payload c s bn (some iss) pev =
        .ok ⟨bn, .Sibling sid, c.toAhAddress i.owner, md.asset_name,
          to_decimal_f64 i.amount md.decimals, .Reserve⟩)
    ∧ (∀ iss f sid md, as_processed_event pev = some ⟨.Sibling sid, true⟩ →
      as_foreign_assets_issued_event iss = some f →
      extract_foreign_asset_metadata_values c s f.asset_id = .ok md →
      generate_xcm_received_payload c s bn (some iss) pev =
        .ok ⟨bn, .Sibling sid, c.toAhAddress f.owner, md.asset_name,
          to_decimal_f64 f.amount md.decimals,
          if is_teleportable_to_sibling f.asset_id sid then .Teleport else .Reserve⟩)
    ∧ (∀ last origin, as_processed_event pev = some ⟨origin, true⟩ →
      supported_incoming_combo origin last = false →
      (generate_xcm_received_payload c s bn last pev).isOk = false)
    ∧ (∀ rest last, is_processed_arm pev = true →
      scan_incoming_events c s bn (.ok pev :: rest) last =
        (match generate_xcm_received_payload c s bn last pev with
         | .ok payload => [payload]
         | .error _ => []) ++ scan_incoming_events c s bn rest none) := by
  refine ⟨?_, ?_, ?_, ?_, ?_, ?_⟩
  · intro iss m hp hm
    have hex := decoders_of_minted iss m hm
    simp [generate_xcm_received_payload, hp, hm, hex.1, hex.2]
  · intro iss m sid hp hm
    have hex := decoders_of_minted iss m hm
    simp [generate_xcm_received_payload, hp, hm, hex.1, hex.2]
  · intro iss i sid md hp hi hmd
    have hex := decoders_of_assets_issued iss i hi
    simp [generate_xcm_received_payload, hp, hi, hmd, hex.1, hex.2]
  · intro iss f sid md hp hf hmd
    have hex := decoders_of_foreign_issued iss f hf
    simp [generate_xcm_received_payload, hp, hf, hmd, hex.1, hex.2,
      is_sibling_concrete_asset_for_message_origin]
  · intro last origin hp hsup
    cases last with
    | none =>
      cases origin <;>
        simp [generate_xcm_received_payload, hp, Except.isOk, Except.toBool]
    | some iss =>
      rcases h1 : as_minted_event iss with _ | m
      · rcases h2 : as_assets_issued_event iss with _ | i
        · rcases h3 : as_foreign_assets_issued_event iss with _ | f
          · cases origin <;>
              simp [generate_xcm_received_payload, hp, h1, h2, h3,
                Except.isOk, Except.toBool]
          · cases origin with
            | Here =>
              simp [generate_xcm_received_payload, hp, h1, h2, h3,
                Except.isOk, Except.toBool]
            | Parent =>
              simp [generate_xcm_received_payload, hp, h1, h2, h3,
                Except.isOk, Except.toBool]
            | Sibling sid =>
              exfalso
              simp [supported_incoming_combo, h3, is_sibling_origin] at hsup
        · have hex := decoders_of_assets_issued iss i h2
          cases origin with
          | Here =>
            simp [generate_xcm_received_payload, hp, hex.1, h2, hex.2,
              Except.isOk, Except.toBool]
          | Parent =>
            simp [generate_xcm_received_payload, hp, hex.1, h2, hex.2,
              Except.isOk, Except.toBool]
          | Sibling sid =>
            exfalso
            simp [supported_incoming_combo, h2, is_sibling_origin] at hsup
      · have hex := decoders_of_minted iss m h1
        cases origin with
        | Here =>
          simp [generate_xcm_received_payload, hp, h1, hex.1, hex.2,
            Except.isOk, Except.toBool]
        | Parent =>
          exfalso
          simp [supported_incoming_combo, h1] at hsup
        | Sibling sid =>
          exfalso
          simp [supported_incoming_combo, h1, is_sibling_origin] at hsup
  · intro rest last harm
    have hni := processed_arm_not_issuance pev harm
    cases hg : generate_xcm_received_payload c s bn last pev with
    | ok payload => simp [scan_incoming_events, hni, harm, hg]
    | error e => simp [scan_incoming_events, hni, harm, hg]

/-- Witness for C1: the `(Parent, minted)` row at concrete inputs, and an
unsupported combination (no pending issuance) yielding no record. -/
theorem incoming_correlation_table_witness :
    generate_xcm_received_payload testFns sampleStorage 77 (some mintedEv) procEvParent =
      .ok ⟨77, .Parent, testFns.toAhAddress accBytes, "DOT",
        to_decimal_f64 88602977965 DOT_DECIMALS, .Teleport⟩
    ∧ (generate_xcm_received_payload testFns sampleStorage 77 none procEvParent).isOk =
      false := by
  have h := incoming_correlation_table testFns sampleStorage 77 procEvParent
  refine ⟨h.1 mintedEv ⟨accBytes, 88602977965⟩ (by decide) (by decide), ?_⟩
  exact h.2.2.2.2.1 none .Parent (by decide) (by decide)
